import Mathlib

/-!
Verification development for the DrTrips hotel-search MCP server
(`src/services/hotel-api.ts` and `src/index.ts`).

The TypeScript source is embedded shallowly:
  * JavaScript truthiness on strings is `≠ ""` (the payload fields involved
    are strings or absent, and absence is merged with `""` exactly where the
    source applies `|| ''`).
  * Numeric payload fields that are only copied or tested for truthiness are
    modelled over `Nat` / `Option Nat` (`none` = absent, `0` = the falsy
    number); the source never does arithmetic on them.
  * Upstream HTTP outcomes are environment parameters: every claim is proved
    for all response shapes representable in the model.
-/

namespace HotelMcp

/-- JS `a || b` on strings (`""` is the only falsy string here). -/
def jsOr (a b : String) : String := if a = "" then b else a

/-- JS `a || b` on numbers (`0` falsy); absence merged with `0` where the
source applies `|| 0` or `|| 1`. -/
def jsOrNat (a b : Nat) : Nat := if a = 0 then b else a

/-- JS `a || b` on possibly-absent numbers: `undefined` and `0` are falsy. -/
def jsOrNum (a b : Option Nat) : Option Nat :=
  match a with
  | some n => if n = 0 then b else some n
  | none => b

/-- JS truthiness of a possibly-absent number. -/
def jsTruthyNum : Option Nat → Bool
  | none => false
  | some n => n != 0

/-- JS `blk.field || fallback` where the field is a possibly-absent number
and the fallback is a number. -/
def jsOrNatOpt (a : Option Nat) (b : Nat) : Nat :=
  match a with
  | some n => if n = 0 then b else n
  | none => b

/-- A possibly-absent JSON field whose expected shape is an object of type
`α`: it can be absent (`undefined`/`null`), an object, or some other
primitive value (only its truthiness matters then). -/
inductive JsField (α : Type) where
  | absent : JsField α
  | object (a : α) : JsField α
  | primitive (truthy : Bool) : JsField α
deriving DecidableEq

/-- Model of `data.field || {}` followed by `typeof x === 'object'`: yields the object
to iterate (the empty object `empty` when the field is absent or falsy), or
`none` when the field held a truthy non-object. -/
def jsFieldAsObject {α : Type} (empty : α) : JsField α → Option α
  | .absent => some empty
  | .object a => some a
  | .primitive t => if t then none else some empty

/-- One entry of an upstream photo array (`any` in the source; `isObject`
records the `typeof photo === 'object'` test, URL fields default to `""`
when absent, matching the `|| ''` defaulting in the source). -/
structure RawPhoto where
  isObject : Bool := true
  url_original : String := ""
  url_max : String := ""
  url_max750 : String := ""
  url_1024x768 : String := ""
  url_640x400 : String := ""
deriving DecidableEq, Repr

/-- URL preference chain used by `getHotelPhotos` and the embedded-photos
fallback: `url_original || url_max || url_1024x768 || url_640x400 || ''`. -/
def photoUrl4 (p : RawPhoto) : String :=
  jsOr p.url_original (jsOr p.url_max (jsOr p.url_1024x768 p.url_640x400))

/-- URL preference chain used by the room-photo scavenging fallback:
`url_original || url_max || url_max750 || url_1024x768 || url_640x400`. -/
def photoUrl5 (p : RawPhoto) : String :=
  jsOr p.url_original (jsOr p.url_max (jsOr p.url_max750
    (jsOr p.url_1024x768 p.url_640x400)))

/-- Room-photo URL preference used when building `RoomData.photos`:
`photo.url_max750 || photo.url_original || ''`. -/
def photoUrl750 (p : RawPhoto) : String := jsOr p.url_max750 p.url_original

/-- Outcome of the dedicated photo endpoint (`getHotelPhotos`): any thrown
error, non-200 status or missing `data` collapses to `failure` (the source
returns `[]` in all those cases); `success` carries `response.data.data`. -/
inductive PhotosResponse where
  | failure : PhotosResponse
  | success (data : List RawPhoto) : PhotosResponse

/-- Embedding of `HotelSearchAPI.getHotelPhotos`: take up to 5 entries, keep each entry's
preferred URL when the entry is an object and yields a usable URL. -/
def getHotelPhotos : PhotosResponse → List String
  | .failure => []
  | .success data =>
      (data.take 5).filterMap fun p =>
        if p.isObject  then
          if photoUrl4 p ≠ "" then some (photoUrl4 p) else none
        else none

/-- One entry of `data.property_highlight_strip`. -/
structure PropertyHighlight where
  isObject : Bool := true
  image : String := ""
  name : String := ""
deriving DecidableEq, Repr

/-- One entry of a room's `facilities` array. -/
structure FacilityEntry where
  isObject : Bool := true
  name : String := ""
deriving DecidableEq, Repr

/-- One entry of a room's `highlights` array. -/
structure RoomHighlight where
  isObject : Bool := true
  translated_name : String := ""
deriving DecidableEq, Repr

/-- One room value of the `data.rooms` map. -/
structure RoomInfo where
  isObject : Bool := true
  description : String := ""
  photos : Option (List RawPhoto) := none
  facilities : Option (List FacilityEntry) := none
  highlights : Option (List RoomHighlight) := none
deriving DecidableEq, Repr

/-- Shape of `gross_amount` / `gross_amount_per_night` of the price breakdown. -/
structure GrossAmount where
  amount_rounded : String := ""
  amount_unrounded : String := ""
  currency : String := ""
deriving DecidableEq, Repr

/-- Shape of `data.product_price_breakdown` (`nr_stays = 0` stands for absent/falsy,
matching the `|| 1` defaulting at the use site). -/
structure PriceBreakdown where
  gross_amount : GrossAmount := {}
  gross_amount_per_night : GrossAmount := {}
  nr_stays : Nat := 0
deriving DecidableEq, Repr

/-- One category value of `data.facilities_block`. -/
structure FacilityCategory where
  isObject : Bool := true
  facilities : Option (List FacilityEntry) := none
deriving DecidableEq, Repr

/-- One entry of a review list; carries every alternative field name the
source consults. -/
structure GuestReview where
  isObject : Bool := true
  author : String := ""
  reviewer_name : String := ""
  content : String := ""
  review_text : String := ""
  positive : String := ""
  name : String := ""
  text : String := ""
  comment : String := ""
  rating : Option Nat := none
  score : Option Nat := none
  date : String := ""
  review_date : String := ""
deriving DecidableEq, Repr

/-- Object shape of `data.breakfast_review_score`. -/
structure BreakfastBlock where
  review_count : Option Nat := none
  rating : Option Nat := none
  review_score : Option Nat := none
deriving DecidableEq, Repr

/-- Object shape of `data.wifi_review_score`. -/
structure WifiBlock where
  rating : Option Nat := none
deriving DecidableEq, Repr

/-- Window shape of `data.checkin` / `data.checkout` (field names `from`/`until` are
Lean keywords, renamed `fromTime`/`untilTime`). -/
structure CheckWindow where
  fromTime : Option String := none
  untilTime : Option String := none
deriving DecidableEq, Repr

/-- The `data` body of a hotel-details response. Fields the source reads with
`|| []` / `|| {}` are merged with the empty collection; fields whose
absent-vs-empty distinction is observable keep an `Option`. Coordinates are
only copied, never computed with, so they are modelled over `Int`. -/
structure HotelData where
  main_photo_url : String := ""
  photos : Option (List RawPhoto) := none
  property_highlight_strip : List PropertyHighlight := []
  rooms : List (String × RoomInfo) := []
  hotel_name : String := ""
  latitude : Option Int := none
  longitude : Option Int := none
  address : String := ""
  city : String := ""
  country_trans : String := ""
  product_price_breakdown : PriceBreakdown := {}
  facilities_block : List (String × FacilityCategory) := []
  review_score_word : String := ""
  review_nr : Nat := 0
  breakfast_review_score : JsField BreakfastBlock := .absent
  wifi_review_score : JsField WifiBlock := .absent
  review_score : Option Nat := none
  rating : Option Nat := none
  guest_reviews : Option (List GuestReview) := none
  review_list : Option (List GuestReview) := none
  reviews : Option (List GuestReview) := none
  checkin : Option CheckWindow := none
  checkout : Option CheckWindow := none
  url : String := ""
  accommodation_type_name : String := ""

/-- Embedded-photos fallback loop (`data.photos.slice(0, 4)`): push each
object entry's preferred URL when usable and not already collected. The
caller passes `ps.take 4`. -/
def addDetailPhotos : List RawPhoto → List String → List String
  | [], acc => acc
  | p :: rest, acc =>
      if p.isObject then
        let u := photoUrl4 p
        if u ≠ "" ∧ u ∉ acc then addDetailPhotos rest (acc ++ [u])
        else addDetailPhotos rest acc
      else addDetailPhotos rest acc

/-- Property-highlight image harvesting loop: push inline images not already
collected, breaking once the list has reached 5 entries (the break test runs
only after a push, as in the source). -/
def addHighlightImages : List PropertyHighlight → List String → List String
  | [], acc => acc
  | h :: rest, acc =>
      if h.isObject ∧ h.image ≠ "" then
        if h.image ∉ acc then
          let acc2 := acc ++ [h.image]
          if 5 ≤ acc2.length then acc2 else addHighlightImages rest acc2
        else addHighlightImages rest acc
      else addHighlightImages rest acc

/-- Inner room-photo scavenging loop over `roomPhotos.slice(0, 3)`: push each
object entry's preferred URL when usable (no dedup here), breaking after any
iteration that leaves 3 or more photos collected. -/
def addRoomScavengedPhotos : List RawPhoto → List String → List String
  | [], acc => acc
  | p :: rest, acc =>
      let acc2 :=
        if p.isObject ∧ photoUrl5 p ≠ "" then acc ++ [photoUrl5 p] else acc
      if 3 ≤ acc2.length then acc2 else addRoomScavengedPhotos rest acc2

/-- Outer room-photo scavenging loop over `data.rooms`, breaking once 3
photos are collected. -/
def scavengeRoomPhotos : List (String × RoomInfo) → List String → List String
  | [], acc => acc
  | (_, ri) :: rest, acc =>
      if ri.isObject ∧ ri.photos.isSome then
        let acc2 := addRoomScavengedPhotos ((ri.photos.getD []).take 3) acc
        if 3 ≤ acc2.length then acc2 else scavengeRoomPhotos rest acc2
      else scavengeRoomPhotos rest acc

/-- The `photosFromDetails` accumulation of `formatHotelDataEnhanced`:
main photo, then up to 4 deduplicated embedded photos, then highlight images
(break at 5), then — only if still empty — up to 3 room photos. -/
def photosFromDetails (data : HotelData) : List String :=
  let a := if data.main_photo_url ≠ "" then [data.main_photo_url] else []
  let b := match data.photos with
    | none => a
    | some ps => addDetailPhotos (ps.take 4) a
  let c := addHighlightImages data.property_highlight_strip b
  if c.length = 0 then scavengeRoomPhotos data.rooms c else c

/-- Photo resolution of `formatHotelDataEnhanced`: the dedicated endpoint's
photos, or — when it yielded none — the detail-payload fallback truncated
to 5. -/
def resolvePhotos (resp : PhotosResponse) (data : HotelData) : List String :=
  let photos := getHotelPhotos resp
  if photos.length = 0 then (photosFromDetails data).take 5 else photos

/-- Insertion-ordered set construction, the semantics of
`Array.from(new Set(xs))` in the source (first occurrence wins). -/
def dedupFirst (l : List String) : List String :=
  l.foldl (fun acc s => if s ∈ acc then acc else acc ++ [s]) []

/-- Facility-name collection of `formatHotelDataEnhanced`: named
property-highlight entries, then every named facility under each category of
`facilities_block` whose value is an object with a `facilities` field. -/
def extractFacilities (data : HotelData) : List String :=
  (data.property_highlight_strip.filterMap fun h =>
    if h.isObject ∧ h.name ≠ "" then some h.name else none)
  ++ data.facilities_block.foldl (fun acc kc =>
      if kc.2.isObject ∧ kc.2.facilities.isSome then
        acc ++ (kc.2.facilities.getD []).filterMap (fun f =>
          if f.isObject ∧ f.name ≠ "" then some f.name else none)
      else acc) []

/-- Canonical output: one featured review. -/
structure FeaturedReview where
  author : String
  content : String
  rating : Option Nat
  date : String
deriving DecidableEq, Repr

/-- Embedding of `extractFeaturedReviews`: guest reviews first, then a generic review
list only when the former yielded nothing, then a synthetic review from the
overall rating word. -/
def extractFeaturedReviews (data : HotelData) : List FeaturedReview :=
  let fromGuest : List FeaturedReview :=
    ((data.guest_reviews.getD []).take 3).filterMap fun r =>
    if r.isObject then
      let content := jsOr r.content (jsOr r.review_text r.positive)
      if content ≠ "" then
        some ({ author := jsOr r.author (jsOr r.reviewer_name "Anonymous")
                content := content
                rating := jsOrNum r.rating r.score
                date := jsOr r.date r.review_date } : FeaturedReview)
      else none
    else none
  let reviewList := match data.review_list with
    | some l => l
    | none => data.reviews.getD []
  let fromList : List FeaturedReview :=
    if fromGuest.length = 0 then
      (reviewList.take 3).filterMap fun r =>
        if r.isObject then
          let content := jsOr r.text (jsOr r.comment r.positive)
          if content ≠ "" then
            some ({ author := jsOr r.author (jsOr r.name "Anonymous")
                    content := content
                    rating := jsOrNum r.rating r.score
                    date := r.date } : FeaturedReview)
          else none
        else none
    else []
  let both := fromGuest ++ fromList
  if both.length = 0 then
    if data.review_score_word ≠ "" then
      [{ author := "Booking.com"
         content := "Overall rating: " ++ data.review_score_word
         rating := jsOrNum data.review_score data.rating
         date := "" }]
    else []
  else both

/-- Canonical output: one rating-score entry. -/
structure RatingScore where
  reviews_category : String
  reviewsCount : Nat
  score : Option Nat
  category : String
deriving DecidableEq, Repr

/-- Rating-score collection of `formatHotelDataEnhanced`. Note that
`data.breakfast_review_score || {}` and `data.wifi_review_score || {}` are
truthy objects even when the fields are absent, so the breakfast and wifi
entries are pushed unless the field held a truthy non-object. -/
def extractRatingScores (data : HotelData) : List RatingScore :=
  let reviewCount := data.review_nr
  let bList := match jsFieldAsObject {} data.breakfast_review_score with
    | none => []
    | some blk =>
        [{ reviews_category := "Breakfast"
           reviewsCount := jsOrNatOpt blk.review_count reviewCount
           score := jsOrNum blk.rating blk.review_score
           category := "breakfast" }]
  let wList := match jsFieldAsObject {} data.wifi_review_score with
    | none => []
    | some blk =>
        [{ reviews_category := "WiFi"
           reviewsCount := reviewCount
           score := blk.rating
           category := "wifi" }]
  let overallScore := jsOrNum data.review_score data.rating
  let oList :=
    if jsTruthyNum overallScore then
      [{ reviews_category := "Overall"
         reviewsCount := reviewCount
         score := overallScore
         category := "overall" : RatingScore }]
    else []
  bList ++ wList ++ oList

/-- Canonical output: one room. -/
structure RoomData where
  name : String
  price : String
  price_per_night : String
  currency : String
  total_days : Nat
  photos : List String
  facilities : List String
  highlights : List String
deriving DecidableEq, Repr

/-- Room extraction of `formatHotelDataEnhanced`: every room shares the one
aggregate price breakdown of the response. -/
def extractRooms (data : HotelData) : List RoomData :=
  let pb := data.product_price_breakdown
  let ga := pb.gross_amount
  let gan := pb.gross_amount_per_night
  data.rooms.foldl (fun acc kr =>
    let roomId := kr.1
    let ri := kr.2
    if ri.isObject then
      acc ++ [{ name := jsOr ri.description ("Room " ++ roomId)
                price := jsOr ga.amount_rounded ga.amount_unrounded
                price_per_night :=
                  jsOr gan.amount_rounded gan.amount_unrounded
                currency := jsOr ga.currency "USD"
                total_days := jsOrNat pb.nr_stays 1
                photos := (ri.photos.getD []).filterMap (fun p =>
                  if p.isObject ∧ photoUrl750 p ≠ "" then some (photoUrl750 p)
                  else none)
                facilities := (ri.facilities.getD []).filterMap (fun f =>
                  if f.isObject ∧ f.name ≠ "" then some f.name else none)
                highlights := (ri.highlights.getD []).filterMap (fun h =>
                  if h.isObject ∧ h.translated_name ≠ "" then
                    some h.translated_name
                  else none) }]
    else acc) []

/-- Canonical output: location block. -/
structure Location where
  latitude : Option Int
  longitude : Option Int
  address : String
  city : String
  country : String
deriving DecidableEq, Repr

/-- Canonical output: check-in/check-out windows. -/
structure CheckinCheckout where
  checkin : CheckWindow
  checkout : CheckWindow
deriving DecidableEq, Repr

/-- Hotel-name slug of the synthesized canonical URL: lowercase, spaces to
hyphens, ampersands to `and` (string functions are written over the
character list so they compute by kernel reduction). -/
def slugify (s : String) : String :=
  let dashed := (s.data.map Char.toLower).map fun c =>
    if c = ' ' then '-' else c
  String.mk (dashed.foldr
    (fun c acc => if c = '&' then 'a' :: 'n' :: 'd' :: acc else c :: acc) [])

/-- Canonical URL of the record: the payload's `url` when it carries the
expected host, otherwise synthesized from the country code and name slug. -/
def buildBaseUrl (dataUrl country hotelName : String) : String :=
  if List.isPrefixOf "https://www.booking.com".data dataUrl.data then dataUrl
  else
    let countryCode :=
      if country ≠ "" then String.mk ((country.data.map Char.toLower).take 2)
      else "us"
    "https://www.booking.com/hotel/" ++ countryCode ++ "/"
      ++ slugify hotelName ++ ".html"

/-- Assignment into a JS object literal under repeated keys: a fresh key is
appended, an existing key's value is overwritten in place. -/
def recordInsert (r : List (String × String)) (k v : String) :
    List (String × String) :=
  if r.any (fun p => p.1 = k) then
    r.map fun p => if p.1 = k then (k, v) else p
  else r ++ [(k, v)]

/-- The search parameters (`HotelSearchParams`). All fields are optional in
the source; absence is merged with the falsy value (`""` / `0` / `[]`)
because every read applies `||` defaulting. -/
structure HotelSearchParams where
  query : String := ""
  destination : String := ""
  check_in_date : String := ""
  arrival_date : String := ""
  check_out_date : String := ""
  departure_date : String := ""
  num_adults : Nat := 0
  adults : Nat := 0
  children : List Nat := []
  rooms : Nat := 0
  room_qty : Nat := 0
  currency : String := ""
  max_results : Nat := 0
deriving DecidableEq, Repr

/-- The `bookingParams` object of `formatHotelDataEnhanced`, in insertion
order: the per-child `req_age` assignments reuse one key, so each overwrites
the previous one. -/
def bookingParamsFor (p : HotelSearchParams) : List (String × String) :=
  let checkInDate := jsOr p.check_in_date p.arrival_date
  let checkOutDate := jsOr p.check_out_date p.departure_date
  let numAdults := jsOrNat p.num_adults (jsOrNat p.adults 1)
  let rooms := jsOrNat p.rooms (jsOrNat p.room_qty 1)
  let base := [("checkin", checkInDate), ("checkout", checkOutDate),
    ("group_adults", toString numAdults), ("no_rooms", toString rooms),
    ("req_adults", toString numAdults), ("sb_price_type", "total"),
    ("type", "total")]
  if 0 < p.children.length then
    let base2 := base ++ [("group_children", toString p.children.length),
      ("req_children", toString p.children.length)]
    p.children.foldl (fun acc age => recordInsert acc "req_age" (toString age))
      base2
  else base

/-- Model of `new URLSearchParams(params).toString()`. Percent-encoding is the
identity on every value the source puts in (digits, hyphens, letters). -/
def queryString (ps : List (String × String)) : String :=
  String.intercalate "&" (ps.map fun p => p.1 ++ "=" ++ p.2)

/-- Base-10 value of a digit string, the model of `parseInt(s, 10)` on an
all-digit string. -/
def digitsToNat (cs : List Char) : Nat :=
  cs.foldl (fun acc c => acc * 10 + (c.toNat - 48)) 0

/-- The record's `hotel_id` field: the id parsed as a number when it is an
all-digit string (`/^\d+$/.test(hotelId)`), the raw string otherwise. -/
def normalizeHotelId (hotelId : String) : Sum Nat String :=
  if hotelId.data ≠ [] ∧ hotelId.data.all Char.isDigit then
    .inl (digitsToNat hotelId.data)
  else .inr hotelId

/-- Canonical output unit (`HotelResult`). -/
structure HotelResult where
  name : String
  location : Location
  photos : List String
  rooms : List RoomData
  facilities : List String
  checkin_checkout : CheckinCheckout
  featured_review : List FeaturedReview
  rating_scores : List RatingScore
  accommodation_type : String
  review_count : Nat
  hotel_id : Sum Nat String
  url : String
  url_booking_hotel : String
deriving DecidableEq, Repr

/-- Shape of the `error`-carrying elements of the result list. -/
structure ApiError where
  error : String
deriving DecidableEq, Repr

/-- A fulfilled value of `getHotelDetailsEnhanced`: an `error` field
(truthy iff nonempty), a `status` flag, and the `data` body when present. -/
structure HotelDetails where
  error : String := ""
  status : Bool := false
  data : Option HotelData := none

/-- One destination of `searchDestinationsByQuery`'s success payload. -/
structure DestinationResult where
  dest_id : String := ""
  dest_type : String := ""
deriving DecidableEq, Repr

/-- Upstream environment of one search: the settled outcomes of every call
the orchestrator can make, i.e. the upstream response shapes. Detail
outcomes are keyed by candidate position (`none` = rejected promise), photo
responses by hotel id. -/
structure UpstreamEnv where
  destResponse : Except String (List DestinationResult)
  listResponse : Except String (List String)
  detailOutcome : Nat → Option HotelDetails
  photosFor : String → PhotosResponse

/-- Embedding of `formatHotelDataEnhanced`: payload validation, photo resolution, field
extraction, URL construction. Never throws; failures are error values. -/
def formatHotelDataEnhanced (env : UpstreamEnv) (hotelId : String)
    (hotelDetails : HotelDetails) (searchParams : HotelSearchParams) :
    Sum HotelResult ApiError :=
  match hotelDetails.data with
  | none => .inr ⟨"Invalid hotel details"⟩
  | some data =>
    if ¬hotelDetails.status then .inr ⟨"Invalid hotel details"⟩
    else
      let photos := resolvePhotos (env.photosFor hotelId) data
      let hotelName := data.hotel_name
      let location : Location :=
        { latitude := data.latitude
          longitude := data.longitude
          address := data.address
          city := data.city
          country := data.country_trans }
      let baseUrl := buildBaseUrl data.url location.country hotelName
      let urlBookingHotel :=
        baseUrl ++ "?" ++ queryString (bookingParamsFor searchParams)
      .inl
        { name := hotelName
          location := location
          photos := photos
          rooms := extractRooms data
          facilities := dedupFirst (extractFacilities data)
          checkin_checkout :=
            { checkin :=
                { fromTime := data.checkin.bind (·.fromTime)
                  untilTime := data.checkin.bind (·.untilTime) }
              checkout :=
                { fromTime := data.checkout.bind (·.fromTime)
                  untilTime := data.checkout.bind (·.untilTime) } }
          featured_review := extractFeaturedReviews data
          rating_scores := extractRatingScores data
          accommodation_type := jsOr data.accommodation_type_name "Hotel"
          review_count := data.review_nr
          hotel_id := normalizeHotelId hotelId
          url := baseUrl
          url_booking_hotel := urlBookingHotel }

/-- Candidate cap of phase 3:
`hotelIds.slice(0, Math.min(10, hotelIds.length))`. The detail-fetch
fan-out issues exactly one call per element of this list. -/
def hotelIdsToProcess (hotelIds : List String) : List String :=
  hotelIds.take (min 10 hotelIds.length)

/-- The validity test of the detail-collection loop:
`result.status === 'fulfilled' && !details.error && details.status`. -/
def validDetail (x : String × Option HotelDetails) :
    Option (String × HotelDetails) :=
  match x.2 with
  | none => none
  | some d => if d.error = "" ∧ d.status then some (x.1, d) else none

/-- Detail-collection loop of `searchHotels`: keep valid settled details in
order, breaking once the collection has reached `cap` entries (the break
test runs after each push, as in the source; the orchestrator passes
`maxResults + 2`). -/
def collectValidDetails (l : List (String × Option HotelDetails))
    (cap : Nat) : List (String × HotelDetails) :=
  match l with
  | [] => []
  | x :: rest =>
    match validDetail x with
    | none => collectValidDetails rest cap
    | some v =>
        if cap ≤ 1 then [v]
        else v :: collectValidDetails rest (cap - 1)

/-- Final-collection loop of `searchHotels`: keep successfully formatted
records in order, breaking once the list has reached `maxResults` entries
(the break test runs after each push, as in the source). -/
def collectFinal (l : List (Sum HotelResult ApiError)) (cap : Nat) :
    List (Sum HotelResult ApiError) :=
  match l with
  | [] => []
  | x :: rest =>
    match x with
    | .inl r => if cap ≤ 1 then [.inl r] else .inl r :: collectFinal rest (cap - 1)
    | .inr _ => collectFinal rest cap

/-- Embedding of `HotelSearchAPI.searchHotels`, the search orchestrator. Error results of
the first two phases are passed through when their message is truthy; a
falsy (empty) message falls through to the `|| []` defaulting and yields an
empty list, exactly as in the source. -/
def searchHotels (env : UpstreamEnv) (p : HotelSearchParams) :
    List (Sum HotelResult ApiError) :=
  let maxResults := jsOrNat p.max_results 3
  match env.destResponse with
  | .error e => if e ≠ "" then [.inr ⟨e⟩] else []
  | .ok destinations =>
    if destinations.length = 0 then []
    else
      match env.listResponse with
      | .error e => if e ≠ "" then [.inr ⟨e⟩] else []
      | .ok hotelIds =>
        if hotelIds.length = 0 then []
        else
          let toProcess := hotelIdsToProcess hotelIds
          let settled := toProcess.enum.map fun ie =>
            (ie.2, env.detailOutcome ie.1)
          let valid := collectValidDetails settled (maxResults + 2)
          if valid.length = 0 then []
          else
            let formatted := valid.map fun idd =>
              formatHotelDataEnhanced env idd.1 idd.2 p
            collectFinal formatted maxResults

/-- A calendar date, the date-only content of a JS `Date` (the handler
zeroes the time-of-day of `today` before comparing). -/
structure SimpleDate where
  y : Nat
  m : Nat
  d : Nat
deriving DecidableEq, Repr

/-- Order key of a date; JS timestamp comparison of valid dates agrees with
this key's order. -/
def dateKey (dt : SimpleDate) : Nat := dt.y * 10000 + dt.m * 100 + dt.d

/-- Split a character list at hyphens (accumulator holds the current field
reversed). -/
def splitOnDash : List Char → List Char → List (List Char)
  | [], cur => [cur.reverse]
  | c :: rest, cur =>
      if c = '-' then cur.reverse :: splitOnDash rest []
      else splitOnDash rest (c :: cur)

/-- Value of a nonempty all-digit character list, `none` otherwise. -/
def parseNatDigits (cs : List Char) : Option Nat :=
  if cs ≠ [] ∧ cs.all Char.isDigit then some (digitsToNat cs) else none

/-- Model of `new Date(s)` on a `YYYY-MM-DD` string: the parsed date, or
`none` for the Invalid Date cases the handler tests with `isNaN`. -/
def parseDate (s : String) : Option SimpleDate :=
  match splitOnDash s.data [] with
  | [ys, ms, ds] =>
    if ys.length = 4 ∧ ms.length = 2 ∧ ds.length = 2 then
      match parseNatDigits ys, parseNatDigits ms, parseNatDigits ds with
      | some y, some m, some d =>
          if 1 ≤ m ∧ m ≤ 12 ∧ 1 ≤ d ∧ d ≤ 31 then some ⟨y, m, d⟩ else none
      | _, _, _ => none
    else none
  | _ => none

/-- Zero-padded two-digit rendering used by `toISOString`. -/
def pad2 (n : Nat) : String := if n < 10 then "0" ++ toString n else toString n

/-- Model of the date part of an ISO timestamp rendering. -/
def dateToIso (dt : SimpleDate) : String :=
  toString dt.y ++ "-" ++ pad2 dt.m ++ "-" ++ pad2 dt.d

/-- The `search_hotels` tool arguments as received by the request handler
(`none` = absent or not of the expected type; the handler's `typeof` guards
reject exactly those). `adults` is an `Int` because it is range-checked. -/
structure ToolArgs where
  destination : Option String := none
  check_in_date : Option String := none
  check_out_date : Option String := none
  adults : Option Int := none
  children : Option (List Nat) := none
  rooms : Option Nat := none
  currency : Option String := none
  max_results : Option Nat := none
deriving Repr

/-- The validation prefix of the `CallToolRequestSchema` handler for
`search_hotels` (`src/index.ts`): argument type checks, date parsing and
ordering checks, adults range check, then construction of the
`HotelSearchParams` handed to `searchHotels`. Every thrown `Error` is the
`.error` case, with the exact message of the source
(`!args.destination.trim()` is the emptiness test of the space-stripped
destination). -/
def validateSearchArgs (today : SimpleDate) (args : ToolArgs) :
    Except String HotelSearchParams :=
  match args.destination with
  | none => .error ("Invalid \"destination\" parameter: must be a non-empty string. "
      ++ "Please provide a city or location name (e.g., \"Paris\", \"Tokyo\", \"New York\"). "
      ++ "If searching for a specific area, include the region (e.g., \"Manhattan, New York\").")
  | some dest =>
    if ((dest.data.dropWhile (· = ' ')).reverse.dropWhile (· = ' ')) = [] then
      .error ("Invalid \"destination\" parameter: must be a non-empty string. "
        ++ "Please provide a city or location name (e.g., \"Paris\", \"Tokyo\", \"New York\"). "
        ++ "If searching for a specific area, include the region (e.g., \"Manhattan, New York\").")
    else
      match args.check_in_date with
      | none => .error ("Invalid \"check_in_date\" parameter: must be a string in YYYY-MM-DD format. "
          ++ "Examples: \"2025-01-15\", \"2025-03-20\". Please provide a valid date.")
      | some ci =>
        match args.check_out_date with
        | none => .error ("Invalid \"check_out_date\" parameter: must be a string in YYYY-MM-DD format. "
            ++ "Examples: \"2025-01-20\", \"2025-03-25\". Please provide a valid date.")
        | some co =>
          match args.adults with
          | none => .error ("Invalid \"adults\" parameter: must be a number between 1 and 30. "
              ++ "Examples: 1 for solo traveler, 2 for couple, 4 for family.")
          | some adults =>
            match parseDate ci with
            | none => .error ("Invalid \"check_in_date\": must be in YYYY-MM-DD format (e.g., \"2025-01-15\"). "
                ++ "The date \"" ++ ci ++ "\" could not be parsed. Please use the format YYYY-MM-DD.")
            | some ciDate =>
              if dateKey ciDate < dateKey today then
                .error ("Invalid \"check_in_date\": cannot be in the past. "
                  ++ "Today is " ++ dateToIso today ++ ". "
                  ++ "Please provide a check-in date that is today or in the future.")
              else
                match parseDate co with
                | none => .error ("Invalid \"check_out_date\": must be in YYYY-MM-DD format (e.g., \"2025-01-20\"). "
                    ++ "The date \"" ++ co ++ "\" could not be parsed. Please use the format YYYY-MM-DD.")
                | some coDate =>
                  if dateKey coDate ≤ dateKey ciDate then
                    .error ("Invalid \"check_out_date\": must be after check-in date. "
                      ++ "Check-in: " ++ ci ++ ", Check-out: " ++ co ++ ". "
                      ++ "Please ensure at least 1 night stay between check-in and check-out dates.")
                  else
                    if adults < 1 ∨ 30 < adults then
                      .error ("Invalid \"adults\" parameter: must be between 1 and 30, got "
                        ++ toString adults ++ ". Please provide a valid number of adults.")
                    else
                      .ok { query := dest
                            check_in_date := ci
                            check_out_date := co
                            num_adults := adults.toNat
                            children := args.children.getD []
                            rooms := jsOrNat (args.rooms.getD 0) 1
                            currency := jsOr (args.currency.getD "") "USD"
                            max_results := jsOrNat (args.max_results.getD 0) 3 }

/-- The `search_hotels` branch of the request handler: validate, then run
the search. A validation error is returned without consulting the upstream
environment (no upstream call is made before validation passes). -/
def handleSearchHotels (today : SimpleDate) (env : UpstreamEnv)
    (args : ToolArgs) : Except String (List (Sum HotelResult ApiError)) :=
  match validateSearchArgs today args with
  | .error e => .error e
  | .ok p => .ok (searchHotels env p)

/-- A trivial upstream environment used to instantiate theorems on concrete
inputs. -/
def trivEnv : UpstreamEnv :=
  { destResponse := .ok []
    listResponse := .ok []
    detailOutcome := fun _ => none
    photosFor := fun _ => .failure }

theorem getHotelPhotos_length_le (resp : PhotosResponse) :
    (getHotelPhotos resp).length ≤ 5 := by
  cases resp with
  | failure => simp [getHotelPhotos]
  | success data =>
      calc (getHotelPhotos (.success data)).length
          ≤ (data.take 5).length := List.length_filterMap_le _ _
        _ ≤ 5 := by simp [List.length_take]

theorem resolvePhotos_length_le (resp : PhotosResponse) (data : HotelData) :
    (resolvePhotos resp data).length ≤ 5 := by
  unfold resolvePhotos
  by_cases h : (getHotelPhotos resp).length = 0
  · simp [h, List.length_take]
  · simpa [h] using getHotelPhotos_length_le resp

theorem collectFinal_length_le (l : List (Sum HotelResult ApiError))
    (cap : Nat) (h : 1 ≤ cap) : (collectFinal l cap).length ≤ cap := by
  induction l generalizing cap with
  | nil => simp [collectFinal]
  | cons x rest ih =>
      cases x with
      | inl r =>
          by_cases hc : cap ≤ 1
          · simp [collectFinal, hc]; omega
          · have : 1 ≤ cap - 1 := by omega
            simp only [collectFinal, if_neg hc, List.length_cons]
            have := ih (cap - 1) this
            omega
      | inr e => simpa [collectFinal] using ih cap h

theorem collectFinal_length_le_input (l : List (Sum HotelResult ApiError))
    (cap : Nat) : (collectFinal l cap).length ≤ l.length := by
  induction l generalizing cap with
  | nil => simp [collectFinal]
  | cons x rest ih =>
      cases x with
      | inl r =>
          by_cases hc : cap ≤ 1
          · simp [collectFinal, hc]
          · simp only [collectFinal, if_neg hc, List.length_cons]
            have := ih (cap - 1)
            omega
      | inr e =>
          simp only [collectFinal, List.length_cons]
          have := ih cap
          omega

theorem collectValidDetails_length_le_input
    (l : List (String × Option HotelDetails)) (cap : Nat) :
    (collectValidDetails l cap).length ≤ l.length := by
  induction l generalizing cap with
  | nil => simp [collectValidDetails]
  | cons x rest ih =>
      cases hv : validDetail x with
      | none =>
          simp only [collectValidDetails, hv, List.length_cons]
          have := ih cap
          omega
      | some v =>
          by_cases hc : cap ≤ 1
          · simp [collectValidDetails, hv, hc]
          · simp only [collectValidDetails, hv, if_neg hc, List.length_cons]
            have := ih (cap - 1)
            omega

theorem collectValidDetails_eq_filterMap_take
    (l : List (String × Option HotelDetails)) (cap : Nat) (h : 1 ≤ cap) :
    collectValidDetails l cap = (l.filterMap validDetail).take cap := by
  induction l generalizing cap with
  | nil => simp [collectValidDetails]
  | cons x rest ih =>
      cases hv : validDetail x with
      | none => simp [collectValidDetails, hv, List.filterMap_cons, ih cap h]
      | some v =>
          by_cases hc : cap ≤ 1
          · have : cap = 1 := by omega
            subst this
            simp [collectValidDetails, hv, List.filterMap_cons]
          · have h1 : 1 ≤ cap - 1 := by omega
            have h2 : cap = (cap - 1) + 1 := by omega
            simp only [collectValidDetails, hv, if_neg hc,
              List.filterMap_cons, ih (cap - 1) h1]
            rw [h2, List.take_succ_cons]
            simp

/-- C1: for every valid `SearchRequest` with `max_results = k ≥ 1` and every
upstream response shape, the list `searchHotels` returns contains at most
`k` successful `HotelRecord` elements (error elements are never counted, and
the final-collection loop breaks once `k` records are kept). -/
theorem searchHotels_success_count_le_max_results (env : UpstreamEnv)
    (p : HotelSearchParams) (h : 1 ≤ p.max_results) :
    ((searchHotels env p).countP Sum.isLeft) ≤ p.max_results := by
  have hmr : jsOrNat p.max_results 3 = p.max_results := by
    unfold jsOrNat
    have : p.max_results ≠ 0 := by omega
    simp [this]
  have hb : ∀ l : List (Sum HotelResult ApiError), l.length ≤ 1 →
      l.countP Sum.isLeft ≤ p.max_results :=
    fun l hl => le_trans (List.countP_le_length _) (le_trans hl h)
  unfold searchHotels
  rw [hmr]
  cases hd : env.destResponse with
  | error e =>
      by_cases he : e = "" <;>
        · simp only [he, ne_eq, not_true_eq_false, not_false_eq_true,
            ite_true, ite_false, if_pos, if_neg]
          apply hb
          simp
  | ok destinations =>
      by_cases hde : destinations.length = 0
      · simp only [hde, ite_true]
        apply hb; simp
      · cases hl : env.listResponse with
        | error e =>
            by_cases he : e = "" <;>
              · simp only [hde, he, ne_eq, not_true_eq_false,
                  not_false_eq_true, ite_true, ite_false, if_pos, if_neg]
                apply hb
                simp
        | ok hotelIds =>
            by_cases hle : hotelIds.length = 0
            · simp only [hde, hle, ite_true, ite_false]
              apply hb; simp
            · simp only [hde, hle, if_neg, ite_false]
              set settled := (hotelIdsToProcess hotelIds).enum.map
                (fun ie => (ie.2, env.detailOutcome ie.1)) with hs
              by_cases hv :
                  (collectValidDetails settled (p.max_results + 2)).length = 0
              · simp only [hv, ite_true]
                apply hb; simp
              · simp only [hv, ite_false]
                calc ((collectFinal _ p.max_results).countP Sum.isLeft)
                    ≤ (collectFinal _ p.max_results).length :=
                      List.countP_le_length _
                  _ ≤ p.max_results :=
                      collectFinal_length_le _ _ (by omega)

/-- Witness for C1 at a concrete valid request and environment. -/
theorem searchHotels_success_count_le_max_results_witness :
    ((searchHotels trivEnv { max_results := 2 }).countP Sum.isLeft) ≤ 2 :=
  searchHotels_success_count_le_max_results trivEnv { max_results := 2 }
    (by decide)

/-- C3: the detail-fetch phase processes exactly the
`hotelIds.slice(0, Math.min(10, n))` prefix of the `n` listed candidates —
one detail-fetch call per element — so it issues no more than `min 10 n`
calls, a bound independent of the requested `max_results` (which
`hotelIdsToProcess` does not even take as an argument). -/
theorem hotelIdsToProcess_length_le_min_ten (hotelIds : List String) :
    (hotelIdsToProcess hotelIds).length ≤ min 10 hotelIds.length := by
  simp [hotelIdsToProcess, List.length_take]

/-- C4: the detail-success collection loop, run at cap `max_results + 2`,
returns exactly the valid settled details in original candidate order
truncated to `max_results + 2`: later successes beyond the cap are
discarded, whether or not earlier candidates failed. -/
theorem collectValidDetails_take_buffer
    (l : List (String × Option HotelDetails)) (maxResults : Nat) :
    collectValidDetails l (maxResults + 2) =
      (l.filterMap validDetail).take (maxResults + 2) :=
  collectValidDetails_eq_filterMap_take l (maxResults + 2) (by omega)

/-- C6: when destination resolution succeeds with zero destinations, the
whole search returns the empty list — a success outcome with no failure
element. -/
theorem searchHotels_empty_destinations (env : UpstreamEnv)
    (p : HotelSearchParams) (h : env.destResponse = .ok []) :
    searchHotels env p = [] := by
  unfold searchHotels
  rw [h]
  simp

/-- Witness for C6 at a concrete environment and request. -/
theorem searchHotels_empty_destinations_witness :
    searchHotels trivEnv {} = [] :=
  searchHotels_empty_destinations trivEnv {} rfl

/-- C10: for every input whatsoever — including `max_results` values above
10 or equal to 0, which the tool handler never range-checks — `searchHotels`
returns at most 10 elements: the final list is drawn from the detail results
of the candidate list capped at 10. -/
theorem searchHotels_length_le_ten (env : UpstreamEnv)
    (p : HotelSearchParams) : (searchHotels env p).length ≤ 10 := by
  unfold searchHotels
  cases hd : env.destResponse with
  | error e => by_cases he : e = "" <;> simp [he]
  | ok destinations =>
      by_cases hde : destinations.length = 0
      · simp [hde]
      · cases hl : env.listResponse with
        | error e => by_cases he : e = "" <;> simp [hde, he]
        | ok hotelIds =>
            by_cases hle : hotelIds.length = 0
            · simp [hde, hle]
            · simp only [hde, hle, if_neg, ite_false]
              set settled := (hotelIdsToProcess hotelIds).enum.map
                (fun ie => (ie.2, env.detailOutcome ie.1)) with hs
              by_cases hv : (collectValidDetails settled
                  (jsOrNat p.max_results 3 + 2)).length = 0
              · simp [hv]
              · simp only [hv, ite_false]
                have h1 : settled.length ≤ 10 := by
                  rw [hs]
                  simp [List.length_take, hotelIdsToProcess]
                calc (collectFinal _ (jsOrNat p.max_results 3)).length
                    ≤ ((collectValidDetails settled
                        (jsOrNat p.max_results 3 + 2)).map
                        (fun idd => formatHotelDataEnhanced env idd.1 idd.2 p)).length :=
                      collectFinal_length_le_input _ _
                  _ = (collectValidDetails settled
                        (jsOrNat p.max_results 3 + 2)).length := by
                      simp
                  _ ≤ settled.length :=
                      collectValidDetails_length_le_input _ _
                  _ ≤ 10 := h1

theorem foldl_dedup_nodup (l : List String) :
    ∀ acc : List String, acc.Nodup →
      (l.foldl (fun acc s => if s ∈ acc then acc else acc ++ [s]) acc).Nodup := by
  induction l with
  | nil => intro acc h; simpa using h
  | cons x xs ih =>
      intro acc h
      simp only [List.foldl_cons]
      by_cases hx : x ∈ acc
      · simpa [hx] using ih acc h
      · have h2 : (acc ++ [x]).Nodup := by
          simp [List.nodup_append, h, hx]
        simpa [hx] using ih _ h2

theorem dedupFirst_nodup (l : List String) : (dedupFirst l).Nodup :=
  foldl_dedup_nodup l [] List.nodup_nil

/-- C2: every `HotelRecord` the normalizer produces — for every raw detail
payload and every photo-endpoint outcome, on the primary photo path and on
every fallback path — has a duplicate-free facilities array and at most 5
photos. -/
theorem formatHotelDataEnhanced_record_invariants (env : UpstreamEnv)
    (hotelId : String) (hotelDetails : HotelDetails)
    (searchParams : HotelSearchParams) (r : HotelResult)
    (h : formatHotelDataEnhanced env hotelId hotelDetails searchParams =
      .inl r) : r.facilities.Nodup ∧ r.photos.length ≤ 5 := by
  unfold formatHotelDataEnhanced at h
  cases hd : hotelDetails.data with
  | none => rw [hd] at h; exact absurd h (by simp)
  | some data =>
      rw [hd] at h
      dsimp only at h
      by_cases hs : hotelDetails.status
      · rw [if_neg (by simp [hs])] at h
        simp only [Sum.inl.injEq] at h
        subst h
        exact ⟨dedupFirst_nodup _, resolvePhotos_length_le _ _⟩
      · rw [if_pos (by simp [hs])] at h
        exact absurd h (by simp)

/-- The concrete record `formatHotelDataEnhanced` produces from an empty
detail body, used to instantiate C2. -/
def sampleDetails : HotelDetails := { error := "", status := true, data := some {} }

/-- The record value of `formatHotelDataEnhanced trivEnv "42" sampleDetails`. -/
def sampleRecord : HotelResult :=
  { name := ""
    location := { latitude := none, longitude := none, address := ""
                  city := "", country := "" }
    photos := []
    rooms := []
    facilities := []
    checkin_checkout := { checkin := { fromTime := none, untilTime := none }
                          checkout := { fromTime := none, untilTime := none } }
    featured_review := []
    rating_scores := [{ reviews_category := "Breakfast", reviewsCount := 0
                        score := none, category := "breakfast" },
                      { reviews_category := "WiFi", reviewsCount := 0
                        score := none, category := "wifi" }]
    accommodation_type := "Hotel"
    review_count := 0
    hotel_id := Sum.inl 42
    url := "https://www.booking.com/hotel/us/.html"
    url_booking_hotel := "https://www.booking.com/hotel/us/.html?checkin=&checkout=&group_adults=1&no_rooms=1&req_adults=1&sb_price_type=total&type=total" }

/-- Witness for C2 at a concrete payload and environment. -/
theorem formatHotelDataEnhanced_record_invariants_witness :
    formatHotelDataEnhanced trivEnv "42" sampleDetails {} =
      .inl sampleRecord ∧
    (sampleRecord.facilities.Nodup ∧ sampleRecord.photos.length ≤ 5) :=
  ⟨by decide, formatHotelDataEnhanced_record_invariants trivEnv "42"
    sampleDetails {} sampleRecord (by decide)⟩

/-- A detail body with no breakfast block, no wifi block and no general
score field. -/
def noScoreData : HotelData := {}

/-- C5 counterexample: on a payload lacking the breakfast-specific block,
the wifi-specific block and the general score field, the normalizer still
emits a breakfast entry and a wifi entry (because
`data.breakfast_review_score || {}` is a truthy object), refuting the claim
that such a payload yields no entry for those categories. -/
theorem extractRatingScores_absent_blocks_still_emit :
    noScoreData.breakfast_review_score = JsField.absent ∧
    noScoreData.wifi_review_score = JsField.absent ∧
    noScoreData.review_score = none ∧ noScoreData.rating = none ∧
    (extractRatingScores noScoreData).map RatingScore.category =
      ["breakfast", "wifi"] :=
  ⟨rfl, rfl, rfl, rfl, rfl⟩

/-- C5 amended: the breakfast and wifi entries are present iff the
corresponding field is absent, falsy, or an object (i.e. unless it is a
truthy non-object value) — independently of any score —, while the overall
entry is present iff the general score (`review_score || rating`) is
present and truthy. -/
theorem extractRatingScores_category_presence (data : HotelData) :
    ((∃ r ∈ extractRatingScores data, r.category = "breakfast") ↔
      jsFieldAsObject {} data.breakfast_review_score ≠ none) ∧
    ((∃ r ∈ extractRatingScores data, r.category = "wifi") ↔
      jsFieldAsObject {} data.wifi_review_score ≠ none) ∧
    ((∃ r ∈ extractRatingScores data, r.category = "overall") ↔
      jsTruthyNum (jsOrNum data.review_score data.rating) = true) := by
  unfold extractRatingScores
  cases hb : jsFieldAsObject ({} : BreakfastBlock) data.breakfast_review_score <;>
    cases hw : jsFieldAsObject ({} : WifiBlock) data.wifi_review_score <;>
      cases ho : jsTruthyNum (jsOrNum data.review_score data.rating) <;>
        simp [hb, hw, ho]

theorem addDetailPhotos_length_of_distinct (l : List RawPhoto) :
    ∀ acc : List String,
      (∀ p ∈ l, p.isObject = true ∧ photoUrl4 p ≠ "") →
      (l.map photoUrl4).Nodup →
      (∀ p ∈ l, photoUrl4 p ∉ acc) →
      (addDetailPhotos l acc).length = acc.length + l.length := by
  induction l with
  | nil => intro acc _ _ _; simp [addDetailPhotos]
  | cons p rest ih =>
      intro acc husable hnodup hdisj
      obtain ⟨hobj, hurl⟩ := husable p (List.mem_cons_self p rest)
      have hnotin : photoUrl4 p ∉ acc := hdisj p (List.mem_cons_self p rest)
      have hhead : photoUrl4 p ∉ rest.map photoUrl4 := by
        have := hnodup
        simp only [List.map_cons, List.nodup_cons] at this
        exact this.1
      simp only [addDetailPhotos, hobj, if_true, ite_true]
      rw [if_pos ⟨hurl, hnotin⟩]
      rw [ih (acc ++ [photoUrl4 p])
        (fun q hq => husable q (List.mem_cons_of_mem p hq))
        (by simp only [List.map_cons, List.nodup_cons] at hnodup
            exact hnodup.2)
        (by intro q hq hmem
            simp only [List.mem_append, List.mem_singleton] at hmem
            rcases hmem with hmem | hmem
            · exact hdisj q (List.mem_cons_of_mem p hq) hmem
            · exact hhead (hmem ▸ List.mem_map_of_mem photoUrl4 hq))]
      simp only [List.length_append, List.length_cons, List.length_nil]
      omega

/-- C8 counterexample: a payload whose dedicated photo endpoint yields zero
photos and whose embedded `photos` array has 6 entries with usable distinct
URLs, but whose `main_photo_url` is also set, resolves to 5 photos, not 4 —
the main photo is pushed before the 4-entry embedded slice, refuting
"exactly 4 deduplicated entries" as universally stated. -/
def embeddedSixPhotos : List RawPhoto :=
  [{ url_original := "u1" }, { url_original := "u2" }, { url_original := "u3" },
   { url_original := "u4" }, { url_original := "u5" }, { url_original := "u6" }]

/-- Payload for the C8 counterexample: main photo plus 6 embedded photos. -/
def mainPlusSixData : HotelData :=
  { main_photo_url := "m", photos := some embeddedSixPhotos }

/-- C8 counterexample theorem: with zero dedicated-endpoint photos and a
non-empty embedded array of 6 usable entries, the resolved photo list has 5
entries, not 4. -/
theorem resolvePhotos_embedded_six_not_four :
    getHotelPhotos PhotosResponse.failure = [] ∧
    (mainPlusSixData.photos.getD []).length = 6 ∧
    (∀ p ∈ mainPlusSixData.photos.getD [],
      p.isObject = true ∧ photoUrl4 p ≠ "") ∧
    (resolvePhotos PhotosResponse.failure mainPlusSixData).length = 5 := by
  decide

/-- C8 amended: when additionally the payload's main photo field is empty,
its property-highlight strip is empty, and the first four embedded entries
carry pairwise distinct URLs, a 6-entry embedded `photos` array resolves to
exactly 4 photos (the embedded-fallback cap), deduplicated. -/
theorem resolvePhotos_embedded_fallback_cap (resp : PhotosResponse)
    (data : HotelData) (ps : List RawPhoto)
    (hresp : getHotelPhotos resp = [])
    (hphotos : data.photos = some ps)
    (hmain : data.main_photo_url = "")
    (hhl : data.property_highlight_strip = [])
    (hlen : ps.length = 6)
    (husable : ∀ p ∈ ps, p.isObject = true ∧ photoUrl4 p ≠ "")
    (hnodup : ((ps.take 4).map photoUrl4).Nodup) :
    (resolvePhotos resp data).length = 4 := by
  have hb : (addDetailPhotos (ps.take 4) []).length = 4 := by
    rw [addDetailPhotos_length_of_distinct (ps.take 4) []
      (fun q hq => husable q (List.take_subset 4 ps hq)) hnodup
      (by intro q _ hmem; exact absurd hmem (List.not_mem_nil _))]
    simp [List.length_take, hlen]
  have hfall : photosFromDetails data = addDetailPhotos (ps.take 4) [] := by
    unfold photosFromDetails
    rw [hphotos, hmain, hhl]
    simp only [ne_eq, not_true_eq_false, ite_false, if_neg]
    have hne : (addDetailPhotos (ps.take 4) []).length = 0 → False := by
      rw [hb]; omega
    simp only [addHighlightImages]
    by_cases hc : (addDetailPhotos (ps.take 4) []).length = 0
    · exact absurd hc hne
    · simp [hc]
  unfold resolvePhotos
  rw [hresp]
  simp only [List.length_nil, ite_true, hfall]
  simp [List.length_take, hb]

/-- Payload for the C8 witness: 6 embedded photos and nothing else. -/
def embeddedOnlyData : HotelData := { photos := some embeddedSixPhotos }

/-- Witness for the amended C8 at a concrete payload. -/
theorem resolvePhotos_embedded_fallback_cap_witness :
    (resolvePhotos PhotosResponse.failure embeddedOnlyData).length = 4 :=
  resolvePhotos_embedded_fallback_cap PhotosResponse.failure embeddedOnlyData
    embeddedSixPhotos (by decide) rfl rfl rfl (by decide) (by decide)
    (by decide)

theorem recordInsert_fresh (r : List (String × String)) (k v : String)
    (h : ∀ q ∈ r, q.1 ≠ k) : recordInsert r k v = r ++ [(k, v)] := by
  have hany : r.any (fun p => p.1 = k) = false := by
    rw [List.any_eq_false]
    intro p hp
    simp [h p hp]
  simp [recordInsert, hany]

theorem map_overwrite_of_fresh (k w : String) (r : List (String × String))
    (h : ∀ q ∈ r, q.1 ≠ k) :
    r.map (fun p => if p.1 = k then (k, w) else p) = r := by
  induction r with
  | nil => rfl
  | cons a t ih =>
      simp only [List.map_cons]
      rw [if_neg (h a (List.mem_cons_self a t)),
        ih fun q hq => h q (List.mem_cons_of_mem a hq)]

theorem recordInsert_overwrite (r : List (String × String)) (k v w : String)
    (h : ∀ q ∈ r, q.1 ≠ k) :
    recordInsert (r ++ [(k, v)]) k w = r ++ [(k, w)] := by
  have hany : (r ++ [(k, v)]).any (fun p => p.1 = k) = true := by
    simp [List.any_append]
  simp only [recordInsert, hany, if_true, ite_true, List.map_append,
    List.map_cons, List.map_nil, if_pos rfl]
  rw [map_overwrite_of_fresh k w r h]

theorem foldl_recordInsert_last (k : String) (ages : List Nat) :
    ∀ (d : Nat) (r : List (String × String)), (∀ q ∈ r, q.1 ≠ k) →
      ages.foldl (fun acc age => recordInsert acc k (toString age))
        (r ++ [(k, toString d)]) = r ++ [(k, toString (ages.getLastD d))] := by
  induction ages with
  | nil => intro d r _; simp [List.getLastD]
  | cons a rest ih =>
      intro d r h
      simp only [List.foldl_cons]
      rw [recordInsert_overwrite r k (toString d) (toString a) h, ih a r h,
        List.getLastD_cons]

/-- C9: for every search request with a non-empty children list, the query
parameter list of the deep booking URL carries `group_children` and
`req_children` equal to the number of children and exactly one `req_age`
pair, whose value is the last child's age (each later child's assignment
overwrote the previous one under the repeated key). -/
theorem bookingParamsFor_children_last_age (p : HotelSearchParams)
    (h : p.children ≠ []) :
    ("group_children", toString p.children.length) ∈ bookingParamsFor p ∧
    ("req_children", toString p.children.length) ∈ bookingParamsFor p ∧
    (bookingParamsFor p).filter (fun q => q.1 = "req_age") =
      [("req_age", toString (p.children.getLastD 0))] := by
  obtain ⟨a, rest, hc⟩ := List.exists_cons_of_ne_nil h
  unfold bookingParamsFor
  rw [hc]
  simp only [List.length_cons, Nat.zero_lt_succ, ite_true, if_pos]
  set checkInDate := jsOr p.check_in_date p.arrival_date with hci
  set checkOutDate := jsOr p.check_out_date p.departure_date with hco
  set numAdults := jsOrNat p.num_adults (jsOrNat p.adults 1) with hna
  set rooms := jsOrNat p.rooms (jsOrNat p.room_qty 1) with hr
  set base2 := [("checkin", checkInDate), ("checkout", checkOutDate),
    ("group_adults", toString numAdults), ("no_rooms", toString rooms),
    ("req_adults", toString numAdults), ("sb_price_type", "total"),
    ("type", "total")] ++
    [("group_children", toString (rest.length + 1)),
     ("req_children", toString (rest.length + 1))] with hb2
  have hfresh : ∀ q ∈ base2, q.1 ≠ "req_age" := by
    intro q hq
    rw [hb2] at hq
    simp only [List.mem_append, List.mem_cons, List.not_mem_nil,
      or_false] at hq
    rcases hq with ((rfl | rfl | rfl | rfl | rfl | rfl | rfl) | (rfl | rfl)) <;>
      simp
  have hfold : (a :: rest).foldl
      (fun acc age => recordInsert acc "req_age" (toString age)) base2 =
      base2 ++ [("req_age", toString ((a :: rest).getLastD 0))] := by
    simp only [List.foldl_cons]
    rw [recordInsert_fresh base2 "req_age" (toString a) hfresh,
      foldl_recordInsert_last "req_age" rest a base2 hfresh,
      List.getLastD_cons]
  rw [hfold]
  refine ⟨?_, ?_, ?_⟩
  · rw [hb2]; simp
  · rw [hb2]; simp
  · rw [List.filter_append]
    have hnil : base2.filter (fun q => q.1 = "req_age") = [] := by
      rw [List.filter_eq_nil_iff]
      intro q hq
      simp [hfresh q hq]
    rw [hnil]
    simp

/-- Request with two children used to instantiate C9. -/
def twoChildrenParams : HotelSearchParams :=
  { check_in_date := "2025-06-10", check_out_date := "2025-06-13"
    num_adults := 2, children := [3, 5], max_results := 3 }

/-- Witness for C9 at a concrete request with children aged 3 and 5. -/
theorem bookingParamsFor_children_last_age_witness :
    ("group_children", toString twoChildrenParams.children.length) ∈
      bookingParamsFor twoChildrenParams ∧
    ("req_children", toString twoChildrenParams.children.length) ∈
      bookingParamsFor twoChildrenParams ∧
    (bookingParamsFor twoChildrenParams).filter (fun q => q.1 = "req_age") =
      [("req_age", toString (twoChildrenParams.children.getLastD 0))] :=
  bookingParamsFor_children_last_age twoChildrenParams (by decide)

/-- Substring test over the underlying character lists (used to state which
phrases the validation message mentions). -/
def strHasSubstring (s sub : String) : Bool :=
  (List.range (s.data.length + 1)).any fun i =>
    List.isPrefixOf sub.data (s.data.drop i)

/-- The tool arguments of the C7 scenario: check-out before check-in. -/
def c7Args : ToolArgs :=
  { destination := some "Paris"
    check_in_date := some "2025-01-20"
    check_out_date := some "2025-01-15"
    adults := some 2 }

/-- The exact error message the handler throws in the C7 scenario. -/
def c7ErrorMsg : String :=
  "Invalid \"check_out_date\": must be after check-in date. Check-in: 2025-01-20, Check-out: 2025-01-15. Please ensure at least 1 night stay between check-in and check-out dates."

set_option maxRecDepth 4000 in
/-- C7: calling the tool with check-in 2025-01-20 and check-out 2025-01-15
yields a validation error — for every upstream environment, so before any
upstream call — whose message mentions both dates and the phrase
"after check-in". (The handler checks the check-in date against the clock
first, so this holds whenever today is not later than the check-in date.) -/
theorem handleSearchHotels_checkout_before_checkin (today : SimpleDate)
    (env : UpstreamEnv) (h : dateKey today ≤ dateKey ⟨2025, 1, 20⟩) :
    handleSearchHotels today env c7Args = .error c7ErrorMsg ∧
    strHasSubstring c7ErrorMsg "after check-in" = true ∧
    strHasSubstring c7ErrorMsg "2025-01-20" = true ∧
    strHasSubstring c7ErrorMsg "2025-01-15" = true := by
  have hpast : ¬ (dateKey ⟨2025, 1, 20⟩ < dateKey today) := by
    simp only [dateKey] at h ⊢
    omega
  have key : validateSearchArgs today c7Args =
      if dateKey ⟨2025, 1, 20⟩ < dateKey today then
        .error ("Invalid \"check_in_date\": cannot be in the past. "
          ++ "Today is " ++ dateToIso today ++ ". "
          ++ "Please provide a check-in date that is today or in the future.")
      else .error c7ErrorMsg := rfl
  have hval : validateSearchArgs today c7Args = .error c7ErrorMsg := by
    rw [key, if_neg hpast]
  refine ⟨?_, by decide, by decide, by decide⟩
  unfold handleSearchHotels
  rw [hval]

/-- Witness for C7 at a concrete clock date before the check-in date. -/
theorem handleSearchHotels_checkout_before_checkin_witness :
    handleSearchHotels ⟨2025, 1, 10⟩ trivEnv c7Args = .error c7ErrorMsg ∧
    strHasSubstring c7ErrorMsg "after check-in" = true ∧
    strHasSubstring c7ErrorMsg "2025-01-20" = true ∧
    strHasSubstring c7ErrorMsg "2025-01-15" = true :=
  handleSearchHotels_checkout_before_checkin ⟨2025, 1, 10⟩ trivEnv (by decide)

end HotelMcp
